import Mathlib

/-!
# Tara stereo camera: auto-exposure loop and exposure calibration

A shallow embedding of the two `CameraDriver::run` loops of the repository:

* `tara_camera_driver.cpp`: the capture loop with the proportional auto-exposure rule
  (namespace `CameraDriver`);
* `tara_camera_tester.cpp`: the calibration run that walks through the exposures (Phase 1)
  and then tries to fill the gray levels it missed (Phase 2) (namespace `CameraTester`).

Conventions of the embedding.

* `float`/`double` values are exact rationals (`ℚ`); rounding errors of the hardware arithmetic
  are not modelled.  A conversion to `int` truncates toward zero.
* A frame is represented by the only thing the loops read from it, its mean gray value.
* The driver's update of `exposure` is partial: a division by a zero brightness sample produces
  an infinity (or a NaN) and a conversion of a value outside the `int` range is undefined in
  C++; in both cases the model has no result (`none`).
* The calibration table is a function from indices to cells, so an access past the end of the
  255-element array appears as an access at an index that is not `validIndex`.  The cells
  that the program does not clear start with an arbitrary content (`initial`).
* The `int` variables of the calibration run are integers without a bound: an overflow of
  `exposure`, which C++ leaves undefined, is not modelled.
* Loops are recursive functions with a bound on the number of iterations (`fuel`); the bounds
  used are enough for the loops to run to their end (`phase1_fuel`, `phase2_fuel`,
  `forLoop_fuel`, `gapEnd_fuel`).
-/

namespace TaraCamera

/-! ## Arithmetic shared by both programs -/

/-- Conversion of a floating-point value to `int`: the fractional part is discarded. -/
def toInt (q : ℚ) : Int :=
  if 0 ≤ q then ⌊q⌋ else ⌈q⌉

/-- Largest value of a 32-bit `int`. -/
def INT_MAX : Int := 2147483647

/-- Smallest value of a 32-bit `int`. -/
def INT_MIN : Int := -2147483648

/-- Conversion of a floating-point value to `int` where C++ defines it: the truncated value has
to be representable. -/
def floatToInt (q : ℚ) : Option Int :=
  if INT_MIN ≤ toInt q ∧ toInt q ≤ INT_MAX then some (toInt q) else none

/-- The C function `round`: nearest integer, halfway cases away from zero. -/
def round (q : ℚ) : ℚ :=
  if 0 ≤ q then (⌊q + 1 / 2⌋ : Int) else -(⌊-q + 1 / 2⌋ : Int)

/-! ## The camera device -/

/-- The two hardware controls the loops write. -/
inductive Control where
  | exposure
  | brightness
  deriving DecidableEq, Repr

/-- Modelled from the spec: the state of the camera device behind `tara_cam_`, whose class is
not among the sources.  The device holds one exposure and one brightness (gain) level and
supports exposures between `expMin` and `expMax`. -/
structure Camera where
  expMin : Int
  expMax : Int
  exposure : Int
  brightness : Int

/-- Modelled from the spec: `setExposure(value)` of the camera device, which is not among the
sources.  It clamps `value` to the supported range, writes it to the device and returns whether
the device accepted it; a rejected write leaves the device as it was.  `accepted` is the answer
of the hardware. -/
def Camera.setExposure (cam : Camera) (accepted : Bool) (value : Int) : Bool × Camera :=
  if accepted then (true, { cam with exposure := max cam.expMin (min value cam.expMax) })
  else (false, cam)

/-- Modelled from the spec: `setBrightness(level)` of the camera device, which is not among the
sources; same contract as `setExposure`, for the gain level. -/
def Camera.setBrightness (cam : Camera) (accepted : Bool) (level : Int) : Bool × Camera :=
  if accepted then (true, { cam with brightness := level })
  else (false, cam)

namespace CameraDriver

/-! ## `tara_camera_driver.cpp` -/

/-- The fields of the global `cameraConfig` that `run` touches. -/
structure Config where
  exposure : Int
  brightness : Int
  realBrightness : ℚ
  feedback : Bool

/-- The members of `CameraDriver` that `run` reads and writes, with the device and the list of
configurations pushed through `dyn_srv_.updateConfig`. -/
structure State where
  next_seq_ : Nat
  exposure : Int
  brightness : Int
  autoExposure : Bool
  exposureGain : ℚ
  targetBrightness : Int
  cameraConfig : Config
  tara_cam_ : Camera
  pushed : List Config

/-- Line 143, `exposure += exposureGain*(targetBrightness/sum*exposure-exposure)`: the value
stored in `exposure`.  There is none when `sum` is zero (the quotient is not a number that
converts to `int`) or when the result does not fit an `int`. -/
def exposureUpdate (exposureGain : ℚ) (targetBrightness : Int) (sum : ℚ) (exposure : Int) :
    Option Int :=
  if sum = 0 then none
  else floatToInt ((exposure : ℚ)
    + exposureGain * ((targetBrightness : ℚ) / sum * (exposure : ℚ) - (exposure : ℚ)))

/-- Lines 145 to 150: the rescue from a negative exposure. -/
def rescueNegative (accepts : Control → Int → Bool) (d : State) : State :=
  if d.exposure < 0 then
    { d with
      brightness := 1
      exposure := 150
      tara_cam_ := (d.tara_cam_.setBrightness (accepts Control.brightness 1) 1).2
      cameraConfig := { d.cameraConfig with brightness := 1 } }
  else d

/-- Lines 151 to 157: the clamp of a too large exposure. -/
def clampLarge (accepts : Control → Int → Bool) (d : State) : State :=
  if d.exposure > 1000000 then
    { d with
      brightness := 7
      tara_cam_ := (d.tara_cam_.setBrightness (accepts Control.brightness 7) 7).2
      exposure := 100000
      cameraConfig := { d.cameraConfig with brightness := 7 } }
  else d

/-- Lines 158 to 161: report the new values and write the exposure to the device.  The result
of `setExposure` is dropped, as in the source. -/
def report (accepts : Control → Int → Bool) (sum : ℚ) (d : State) : State :=
  let cfg : Config := { d.cameraConfig with realBrightness := sum, exposure := d.exposure }
  { d with
    cameraConfig := cfg
    pushed := if cfg.feedback then cfg :: d.pushed else d.pushed
    tara_cam_ := (d.tara_cam_.setExposure (accepts Control.exposure d.exposure) d.exposure).2 }

/-- One auto-exposure evaluation, lines 140 to 161 of `run`; `sum` is the mean gray value of
the upper half of the left frame and `accepts` tells which control writes the device takes. -/
def evaluation (accepts : Control → Int → Bool) (sum : ℚ) (d : State) : Option State :=
  match exposureUpdate d.exposureGain d.targetBrightness sum d.exposure with
  | none => none
  | some e => some (report accepts sum (clampLarge accepts (rescueNegative accepts
      { d with exposure := e })))

/-- Lines 138 and 139: whether the frame grabbed at counter value `next_seq_` is evaluated. -/
def evaluates (autoExposure : Bool) (next_seq_ : Nat) : Bool :=
  autoExposure && (next_seq_ % 5 == 0)

/-- The counter after a frame: `next_seq_++` runs only under `if (autoExposure)`.  The type of
`next_seq_` is declared in a header that is not among the sources; `modulus` is the number of
values of that type. -/
def advance (modulus : Nat) (autoExposure : Bool) (next_seq_ : Nat) : Nat :=
  if autoExposure then (next_seq_ + 1) % modulus else next_seq_

/-- One iteration of the `while (ros::ok())` loop of `run`, lines 112 to 165, for a frame of
mean gray value `sum`. -/
def frame (modulus : Nat) (accepts : Control → Int → Bool) (sum : ℚ) (d : State) :
    Option State :=
  let d1 : State := { d with next_seq_ := advance modulus d.autoExposure d.next_seq_ }
  if evaluates d.autoExposure d.next_seq_ then evaluation accepts sum d1 else some d1

/-- The loop of `run` over the frames of mean gray values `sums`: the final state and the
number of frames that were evaluated. -/
def run (modulus : Nat) (accepts : Control → Int → Bool) : List ℚ → State → Option (State × Nat)
  | [], d => some (d, 0)
  | sum :: sums, d =>
    match frame modulus accepts sum d with
    | none => none
    | some d1 =>
      match run modulus accepts sums d1 with
      | none => none
      | some (d2, n) => some (d2, (if evaluates d.autoExposure d.next_seq_ then 1 else 0) + n)

/-- Number of evaluations among `n` consecutive grabs that start at counter value `next_seq_`,
with the auto-exposure switch held at `autoExposure`. -/
def evaluationEvents (modulus : Nat) (autoExposure : Bool) : Nat → Nat → Nat
  | 0, _ => 0
  | n + 1, next_seq_ =>
    (if evaluates autoExposure next_seq_ then 1 else 0)
      + evaluationEvents modulus autoExposure n (advance modulus autoExposure next_seq_)

/-- The members as the constructor of `CameraDriver` sets them (lines 51 to 56), in front of a
device that holds the same exposure and brightness. -/
def constructed : State where
  next_seq_ := 0
  exposure := 1000
  brightness := 1
  autoExposure := true
  exposureGain := 1
  targetBrightness := 128
  cameraConfig := { exposure := 1000, brightness := 1, realBrightness := 0, feedback := false }
  tara_cam_ := { expMin := 1, expMax := 1000000, exposure := 1000, brightness := 1 }
  pushed := []

/-- The constructed driver after a reconfiguration to the exposure 100, the brightness 3 and
the gain coefficient 50. -/
def reconfigured : State :=
  { constructed with
    exposure := 100
    brightness := 3
    exposureGain := 50
    tara_cam_ := { expMin := 1, expMax := 1000000, exposure := 100, brightness := 3 } }

/-- A device that rejects every control write. -/
def rejectAll : Control → Int → Bool := fun _ _ => false

end CameraDriver

namespace CameraTester

/-! ## `tara_camera_tester.cpp` -/

/-- Number of elements of `int exposureArray[255]`. -/
def exposureArraySize : Int := 255

/-- An index the array `exposureArray` really has. -/
def validIndex (g : Int) : Prop := 0 ≤ g ∧ g < exposureArraySize

instance (g : Int) : Decidable (validIndex g) := by
  unfold validIndex
  infer_instance

/-- The constant `minGray` of `run`. -/
def minGray : Int := 20

/-- The constant `maxGray` of `run`. -/
def maxGray : Int := 255 - minGray

/-- The local variables of the calibration run.  `taken` counts the brightness measurements
made so far; the camera is a function `bright` that gives, for the number of the measurement
and the exposure that was applied, the mean gray value of the measured left frame. -/
structure State where
  sum : ℚ
  lastSum : ℚ
  exposure : Int
  increment : Int
  exposureArray : Int → Int
  taken : Nat

/-- Lines 97 to 105: the variables before the walkthrough.  The loop of line 104 clears the
cells from `minGray` up to `maxGray - 1` only; `initial` is what the memory of the other cells
of the array happens to hold. -/
def start (initial : Int → Int) : State where
  sum := 0
  lastSum := 10
  exposure := 10
  increment := 1
  exposureArray := fun g => if minGray ≤ g ∧ g < maxGray then 0 else initial g
  taken := 0

/-- The index `(int)(sum+0.5)` of line 119. -/
def walkIndex (sum : ℚ) : Int := toInt (sum + 1 / 2)

/-- The index `(int)(round(sum))` of line 142. -/
def fillIndex (sum : ℚ) : Int := toInt (round sum)

/-- Line 120: the adaptive step of the exposure increment. -/
def adapt (increment : Int) (lastSum sum : ℚ) (exposure : Int) : Int :=
  if lastSum < sum then
    toInt (max (min ((increment : ℚ) / (sum - lastSum)) ((exposure : ℚ) / 10)) 1)
  else increment

/-- Lines 111 to 123: the body of the walkthrough loop. -/
def walkBody (bright : Nat → Int → ℚ) (s : State) : State :=
  let lastSum := s.sum
  let sum := bright s.taken s.exposure
  let increment := adapt s.increment lastSum sum s.exposure
  { sum := sum
    lastSum := lastSum
    exposureArray := Function.update s.exposureArray (walkIndex sum) s.exposure
    increment := increment
    exposure := s.exposure + increment
    taken := s.taken + 1 }

/-- The condition of the walkthrough loop, line 109. -/
def walkCond (i : Int) (s : State) : Prop :=
  i < 1000 ∧ (s.sum < maxGray ∨ s.lastSum < maxGray ∨ s.exposure < 255)

instance (i : Int) (s : State) : Decidable (walkCond i s) := by
  unfold walkCond
  infer_instance

/-- The walkthrough loop of lines 109 to 124 from its counter value `i`, cut after `fuel`
iterations: `walkLoop bright fuel 0 s` is the state after the first `fuel` iterations, or the
final state if the loop ends before. -/
def walkLoop (bright : Nat → Int → ℚ) : Nat → Int → State → State
  | 0, _, s => s
  | fuel + 1, i, s =>
    if walkCond i s then walkLoop bright fuel (i + 1) (walkBody bright s) else s

/-- Phase 1, lines 97 to 124: the whole walkthrough.  The loop makes at most 1000 iterations. -/
def phase1 (bright : Nat → Int → ℚ) (initial : Int → Int) : State :=
  walkLoop bright 1000 0 (start initial)

/-- Line 132, `while (j<maxGray && exposureArray[j]==0) j++`, with `fuel` bounding the number
of iterations. -/
def gapEnd (exposureArray : Int → Int) : Nat → Int → Int
  | 0, j => j
  | fuel + 1, j =>
    if j < maxGray ∧ exposureArray j = 0 then gapEnd exposureArray fuel (j + 1) else j

/-- Line 137: the exposure tried for the gray level `k` of the gap from `i` to `j`. -/
def interpolate (i j k : Int) (minExposure maxExposure : ℚ) : Int :=
  toInt (((k - i + 1 : Int) : ℚ) * (maxExposure - minExposure) / ((j - i + 1 : Int) : ℚ)
    + minExposure)

/-- Lines 137 to 147: the body of the loop over the gray levels `k` of a gap. -/
def tryLevel (bright : Nat → Int → ℚ) (i j : Int) (minExposure maxExposure : ℚ) (k : Int)
    (s : State) : State :=
  let exposure := interpolate i j k minExposure maxExposure
  let sum := bright s.taken exposure
  let index := fillIndex sum
  { s with
    exposure := exposure
    sum := sum
    taken := s.taken + 1
    exposureArray :=
      if s.exposureArray index = 0 then Function.update s.exposureArray index exposure
      else s.exposureArray }

/-- A loop `for (int i = from; i < hi; i++) body`, with `fuel` bounding the number of
iterations. -/
def forLoop {σ : Type} (hi : Int) (body : Int → σ → σ) : Nat → Int → σ → σ
  | 0, _, s => s
  | fuel + 1, i, s => if i < hi then forLoop hi body fuel (i + 1) (body i s) else s

/-- Lines 128 to 150: the body of the scan for gaps, at gray level `i`. -/
def scanBody (bright : Nat → Int → ℚ) (i : Int) (s : State) : State :=
  if s.exposureArray i = 0 then
    let j := gapEnd s.exposureArray (maxGray - i).toNat i
    let minExposure : ℚ := s.exposureArray (i - 1)
    let maxExposure : ℚ := s.exposureArray j
    forLoop j (tryLevel bright i j minExposure maxExposure) (j - i).toNat i s
  else s

/-- The scan of lines 127 to 151 from gray level `i` on. -/
def scanFrom (bright : Nat → Int → ℚ) (i : Int) (s : State) : State :=
  forLoop maxGray (scanBody bright) (maxGray - i).toNat i s

/-- Phase 2, lines 126 to 151: detect the missing gray levels and try to fill them. -/
def phase2 (bright : Nat → Int → ℚ) (s : State) : State :=
  scanFrom bright minGray s

/-- The state in which the scan of Phase 2 reaches the gray level `i`. -/
def scanReached (bright : Nat → Int → ℚ) (i : Int) (s : State) : State :=
  forLoop maxGray (scanBody bright) (i - minGray).toNat minGray s

/-! ### Cameras and memories used as examples -/

/-- Memory that holds zeros. -/
def zeroMemory : Int → Int := fun _ => 0

/-- A camera behind a covered lens: every frame is black. -/
def darkCamera : Nat → Int → ℚ := fun _ _ => 0

/-- A camera whose frames are saturated: every pixel is 255. -/
def saturatedCamera : Nat → Int → ℚ := fun _ _ => 255

/-- A brightness that grows with the exposure, one gray level per exposure step, up to 250. -/
def rampBrightness (e : Int) : ℚ := min ((e : ℚ) + 10) 250

/-- A deterministic brightness function of the exposure: half a gray level per exposure step,
with a flat stretch and a jump between the exposures 100 and 115, and 250 at most. -/
def stepBrightness (e : Int) : ℚ :=
  if e = 103 then 66
  else if e = 105 then 67
  else if e ≤ 10 then 20
  else if e ≤ 100 then 20 + ((e : ℚ) - 10) / 2
  else if e < 112 then 65 + 1 / 20
  else if e < 115 then 68 + 1 / 20
  else min (69 + 1 / 4 + ((e : ℚ) - 115) / 2) 250

/-- A state whose table has no unset cell. -/
def fullTable : State where
  sum := 0
  lastSum := 10
  exposure := 10
  increment := 1
  exposureArray := fun g => 10 * g + 1
  taken := 0

/-! ### Invariants -/

/-- The invariant of the walkthrough: the step is at least 1 and at most a tenth of the
exposure. -/
def StepBounded (s : State) : Prop :=
  1 ≤ s.increment ∧ 10 * s.increment ≤ s.exposure

/-- A cell that is set in `s0` has the same value in `s`. -/
def Keeps (s0 s : State) : Prop :=
  ∀ g, s0.exposureArray g ≠ 0 → s.exposureArray g = s0.exposureArray g

/-- The invariant behind the order of the table: with a brightness `f` that grows with the
exposure, every cell the walkthrough has changed holds an exposure below the current one, at a
gray level not above the one the current exposure gives, and the changed cells are in
order.  `table0` is the table before the walkthrough. -/
def Ordered (f : Int → ℚ) (table0 : Int → Int) (s : State) : Prop :=
  (∀ g, s.exposureArray g ≠ table0 g →
      s.exposureArray g < s.exposure ∧ g ≤ walkIndex (f s.exposure)) ∧
  (∀ g1 g2, g1 < g2 → s.exposureArray g1 ≠ table0 g1 → s.exposureArray g2 ≠ table0 g2 →
      s.exposureArray g1 ≤ s.exposureArray g2)

end CameraTester

end TaraCamera

/-! # Theorems -/

namespace TaraCamera

/-! ## Facts about the conversions -/

theorem toInt_mono {q r : ℚ} (h : q ≤ r) : toInt q ≤ toInt r := by
  unfold toInt
  split_ifs with hq hr hr
  · exact Int.floor_mono h
  · exact absurd (le_trans hq h) hr
  · have h1 : ⌈q⌉ ≤ 0 := Int.ceil_le.mpr (by push_cast; linarith)
    have h2 : (0 : Int) ≤ ⌊r⌋ := Int.floor_nonneg.mpr hr
    omega
  · exact Int.ceil_mono h

theorem toInt_of_nonneg {q : ℚ} (h : 0 ≤ q) : toInt q = ⌊q⌋ := by
  unfold toInt
  rw [if_pos h]

theorem toInt_intCast (z : Int) : toInt (z : ℚ) = z := by
  unfold toInt
  split_ifs <;> simp

namespace CameraDriver

/-! ## The auto-exposure loop of the driver -/

theorem report_exposure (accepts : Control → Int → Bool) (sum : ℚ) (d : State) :
    (report accepts sum d).exposure = d.exposure ∧
      (report accepts sum d).brightness = d.brightness := by
  simp [report]

theorem rescueNegative_exposure (accepts : Control → Int → Bool) (d : State) :
    (rescueNegative accepts d).exposure = (if d.exposure < 0 then 150 else d.exposure) ∧
      (rescueNegative accepts d).brightness = (if d.exposure < 0 then 1 else d.brightness) := by
  unfold rescueNegative
  split_ifs <;> simp

theorem clampLarge_exposure (accepts : Control → Int → Bool) (d : State) :
    (clampLarge accepts d).exposure = (if d.exposure > 1000000 then 100000 else d.exposure) ∧
      (clampLarge accepts d).brightness = (if d.exposure > 1000000 then 7 else d.brightness) := by
  unfold clampLarge
  split_ifs <;> simp

theorem report_device (accepts : Control → Int → Bool) (sum : ℚ) (d : State)
    (h : accepts Control.exposure d.exposure = false) :
    (report accepts sum d).tara_cam_ = d.tara_cam_ := by
  simp [report, Camera.setExposure, h]

theorem rescueNegative_device_exposure (accepts : Control → Int → Bool) (d : State) :
    (rescueNegative accepts d).tara_cam_.exposure = d.tara_cam_.exposure := by
  unfold rescueNegative Camera.setBrightness
  split_ifs <;> simp

theorem clampLarge_device_exposure (accepts : Control → Int → Bool) (d : State) :
    (clampLarge accepts d).tara_cam_.exposure = d.tara_cam_.exposure := by
  unfold clampLarge Camera.setBrightness
  split_ifs <;> simp

/-- The exposure and the brightness an evaluation ends with, from the value `e` that line 143
stored; the device is written but never read back, and a rejected exposure leaves it with the
exposure it held. -/
theorem evaluation_result (accepts : Control → Int → Bool) (sum : ℚ) (d : State) (e : Int)
    (h : exposureUpdate d.exposureGain d.targetBrightness sum d.exposure = some e) :
    ∃ d1, evaluation accepts sum d = some d1 ∧
      d1.exposure = (if e < 0 then 150 else if e > 1000000 then 100000 else e) ∧
      d1.brightness = (if e < 0 then 1 else if e > 1000000 then 7 else d.brightness) ∧
      (accepts Control.exposure d1.exposure = false →
        d1.tara_cam_.exposure = d.tara_cam_.exposure) := by
  have he : evaluation accepts sum d = some (report accepts sum (clampLarge accepts
      (rescueNegative accepts { d with exposure := e }))) := by
    simp only [evaluation, h]
  refine ⟨_, he, ?_, ?_, ?_⟩
  · rw [(report_exposure _ _ _).1, (clampLarge_exposure _ _).1, (rescueNegative_exposure _ _).1]
    by_cases h0 : e < 0
    · simp [h0]
    · simp [h0]
  · rw [(report_exposure _ _ _).2, (clampLarge_exposure _ _).2, (rescueNegative_exposure _ _).1,
      (rescueNegative_exposure _ _).2]
    by_cases h0 : e < 0
    · simp [h0]
    · simp [h0]
  · intro hrej
    rw [(report_exposure _ _ _).1] at hrej
    rw [report_device _ _ _ hrej, clampLarge_device_exposure, rescueNegative_device_exposure]

/-- For a brightness sample of zero the model gives line 143 no value: the quotient
`targetBrightness/sum` is an infinity or a NaN, and its conversion to `int` is not defined. -/
theorem exposureUpdate_zero (gain : ℚ) (target exposure : Int) :
    exposureUpdate gain target 0 exposure = none := by
  unfold exposureUpdate
  rw [if_pos rfl]

/-- An evaluation leaves the frame counter and the auto-exposure switch alone. -/
theorem evaluation_counter (accepts : Control → Int → Bool) (sum : ℚ) (d d1 : State)
    (h : evaluation accepts sum d = some d1) :
    d1.next_seq_ = d.next_seq_ ∧ d1.autoExposure = d.autoExposure := by
  unfold evaluation at h
  split at h
  · exact absurd h (by simp)
  · have h1 := Option.some.inj h
    subst h1
    unfold report clampLarge rescueNegative
    constructor <;> (split_ifs <;> simp)

/-- The counter after a frame is the one `advance` gives, evaluated or not. -/
theorem frame_counter (modulus : Nat) (accepts : Control → Int → Bool) (sum : ℚ)
    (d d1 : State) (h : frame modulus accepts sum d = some d1) :
    d1.next_seq_ = advance modulus d.autoExposure d.next_seq_ ∧
      d1.autoExposure = d.autoExposure := by
  unfold frame at h
  simp only at h
  split_ifs at h
  · have := evaluation_counter _ _ _ _ h
    simpa using this
  · have h1 := Option.some.inj h
    subst h1
    simp

/-- The number of evaluations that `run` makes over a list of frames is the number that
`evaluationEvents` counts from the counter value and the switch at the start. -/
theorem run_events (modulus : Nat) (accepts : Control → Int → Bool) (sums : List ℚ)
    (d d2 : State) (n : Nat) (h : run modulus accepts sums d = some (d2, n)) :
    n = evaluationEvents modulus d.autoExposure sums.length d.next_seq_ := by
  induction sums generalizing d d2 n with
  | nil =>
    unfold run at h
    have h1 := Option.some.inj h
    simp only [List.length_nil, evaluationEvents]
    exact (congrArg Prod.snd h1).symm
  | cons sum sums ih =>
    unfold run at h
    cases hf : frame modulus accepts sum d with
    | none =>
      rw [hf] at h
      exact absurd h (by simp)
    | some d1 =>
      rw [hf] at h
      simp only at h
      cases hr : run modulus accepts sums d1 with
      | none =>
        rw [hr] at h
        exact absurd h (by simp)
      | some r =>
        obtain ⟨d3, m⟩ := r
        rw [hr] at h
        simp only at h
        have h1 := Option.some.inj h
        have h2 := ih d1 d3 m hr
        have h3 := frame_counter modulus accepts sum d d1 hf
        rw [h3.1, h3.2] at h2
        simp only [List.length_cons, evaluationEvents]
        rw [← h2]
        exact (congrArg Prod.snd h1).symm

theorem evaluationEvents_add (modulus : Nat) (a : Bool) (m n s : Nat) :
    evaluationEvents modulus a (m + n) s
      = evaluationEvents modulus a m s
        + evaluationEvents modulus a n ((fun t => advance modulus a t)^[m] s) := by
  induction m generalizing s with
  | zero => simp [evaluationEvents]
  | succ m ih =>
    have h1 : m + 1 + n = (m + n) + 1 := by omega
    rw [h1, evaluationEvents, evaluationEvents, ih, Function.iterate_succ_apply]
    omega

theorem advance_iterate (modulus : Nat) (m s : Nat) (h : s + m < modulus) :
    (fun t => advance modulus true t)^[m] s = s + m := by
  induction m generalizing s with
  | zero => simp
  | succ m ih =>
    rw [Function.iterate_succ_apply]
    have h1 : advance modulus true s = s + 1 := by
      simp only [advance, if_true]
      exact Nat.mod_eq_of_lt (by omega)
    rw [h1, ih (s + 1) (by omega)]
    omega

/-- Among five consecutive counter values exactly one is a multiple of five. -/
theorem evaluationEvents_five (modulus : Nat) (s : Nat) :
    evaluationEvents modulus true 5 s = 1 ∨ s + 5 > modulus := by
  by_cases hm : s + 5 > modulus
  · exact Or.inr hm
  · left
    have e1 : (s + 1) % modulus = s + 1 := Nat.mod_eq_of_lt (by omega)
    have e2 : (s + 1 + 1) % modulus = s + 2 := Nat.mod_eq_of_lt (by omega)
    have e3 : (s + 2 + 1) % modulus = s + 3 := Nat.mod_eq_of_lt (by omega)
    have e4 : (s + 3 + 1) % modulus = s + 4 := Nat.mod_eq_of_lt (by omega)
    simp only [evaluationEvents, evaluates, advance, if_true, Bool.true_and, beq_iff_eq,
      e1, e2, e3, e4]
    split_ifs <;> omega

/-- C6: while auto-exposure is active, any 20 consecutive grabs contain exactly 4
evaluations, one every fifth frame.  The frame counter `next_seq_` has `modulus` values (its
type is declared outside the sources) and the 20 grabs start at counter value `s` without
running past the last value of the counter. -/
theorem evaluationEvents_twenty (modulus s : Nat) (h : s + 20 ≤ modulus) :
    evaluationEvents modulus true 20 s = 4 := by
  have h5 : ∀ t, t + 5 ≤ modulus → evaluationEvents modulus true 5 t = 1 := by
    intro t ht
    rcases evaluationEvents_five modulus t with h1 | h1
    · exact h1
    · omega
  have a1 := evaluationEvents_add modulus true 5 15 s
  have a2 := evaluationEvents_add modulus true 5 10 (s + 5)
  have a3 := evaluationEvents_add modulus true 5 5 (s + 10)
  rw [advance_iterate modulus 5 s (by omega)] at a1
  rw [advance_iterate modulus 5 (s + 5) (by omega)] at a2
  rw [advance_iterate modulus 5 (s + 10) (by omega)] at a3
  have b1 := h5 s (by omega)
  have b2 := h5 (s + 5) (by omega)
  have b3 := h5 (s + 10) (by omega)
  have b4 := h5 (s + 15) (by omega)
  have c3 : s + 10 + 5 = s + 15 := by omega
  have c2 : s + 5 + 5 = s + 10 := by omega
  rw [c3] at a3
  rw [c2] at a2
  have d0 : (20 : Nat) = 5 + 15 := by norm_num
  have d1 : (15 : Nat) = 5 + 10 := by norm_num
  have d2 : (10 : Nat) = 5 + 5 := by norm_num
  rw [d0, a1, d1, a2, d2, a3, b1, b2, b3, b4]

/-- A window of 20 grabs of a 32-bit counter, from the counter value 7 on. -/
theorem evaluationEvents_twenty_witness :
    7 + 20 ≤ 4294967296 ∧ evaluationEvents 4294967296 true 20 7 = 4 :=
  ⟨by decide, evaluationEvents_twenty 4294967296 7 (by decide)⟩

/-- C7, as stated, fails: the constructed driver (exposure 1000, accepted by the device) gets
a frame of mean gray value 64 and computes the exposure 2000; the device rejects the write and
keeps 1000, and the driver goes on with 2000, the value the next evaluation starts from. -/
theorem rejected_exposure_is_kept :
    ∃ d1, evaluation rejectAll 64 constructed = some d1 ∧
      d1.exposure = 2000 ∧ d1.tara_cam_.exposure = 1000 ∧
      rejectAll Control.exposure 2000 = false := by
  obtain ⟨d1, h1, h2, _, h4⟩ := evaluation_result rejectAll 64 constructed 2000 (by decide!)
  exact ⟨d1, h1, h2.trans (by decide), h4 rfl, rfl⟩

/-- C7, as the code has it: a rejected write does not stop the evaluation, and the exposure
it ends with, which the next evaluation starts from, is the value the loop computed (after the
saturation handling), whether the device accepted the write or not; after a rejected write of
the exposure the device still holds the exposure it held before. -/
theorem evaluation_continues_with_computed (accepts : Control → Int → Bool) (sum : ℚ)
    (d : State) (e : Int)
    (h : exposureUpdate d.exposureGain d.targetBrightness sum d.exposure = some e) :
    ∃ d1, evaluation accepts sum d = some d1 ∧
      d1.exposure = (if e < 0 then 150 else if e > 1000000 then 100000 else e) ∧
      (accepts Control.exposure d1.exposure = false →
        d1.tara_cam_.exposure = d.tara_cam_.exposure) := by
  obtain ⟨d1, h1, h2, _, h4⟩ := evaluation_result accepts sum d e h
  exact ⟨d1, h1, h2, h4⟩

/-- The reconfigured driver (exposure 100, gain coefficient 50) at a frame of mean gray value
64, in front of a device that rejects every write: the loop goes on with the computed
exposure 5100 and the device keeps the exposure 100. -/
theorem evaluation_continues_with_computed_witness :
    exposureUpdate reconfigured.exposureGain reconfigured.targetBrightness 64
        reconfigured.exposure = some 5100 ∧
    ∃ d1, evaluation rejectAll 64 reconfigured = some d1 ∧ d1.exposure = 5100 ∧
      d1.tara_cam_.exposure = 100 := by
  obtain ⟨d1, h1, h2, h3⟩ :=
    evaluation_continues_with_computed rejectAll 64 reconfigured 5100 (by decide!)
  exact ⟨by decide!, d1, h1, h2.trans (by decide), h3 rfl⟩

end CameraDriver

namespace CameraTester

/-! ## The calibration run: loops and invariants -/

theorem walkIndex_mono {q r : ℚ} (h : q ≤ r) : walkIndex q ≤ walkIndex r := by
  unfold walkIndex
  exact toInt_mono (by linarith)

/-- What holds before a loop and is kept by its body holds after the loop. -/
theorem forLoop_induction {σ : Type} (P : σ → Prop) (hi : Int) (body : Int → σ → σ)
    (hbody : ∀ i s, P s → P (body i s)) (fuel : Nat) (i : Int) (s : σ) (h : P s) :
    P (forLoop hi body fuel i s) := by
  induction fuel generalizing i s with
  | zero => exact h
  | succ n ih =>
    unfold forLoop
    split_ifs
    · exact ih _ _ (hbody _ _ h)
    · exact h

/-- What holds before the walkthrough and is kept by its body holds at every stage of it. -/
theorem walkLoop_induction (bright : Nat → Int → ℚ) (P : State → Prop)
    (hbody : ∀ s, P s → P (walkBody bright s)) (fuel : Nat) (i : Int) (s : State) (h : P s) :
    P (walkLoop bright fuel i s) := by
  induction fuel generalizing i s with
  | zero => exact h
  | succ n ih =>
    unfold walkLoop
    split_ifs
    · exact ih _ _ (hbody _ h)
    · exact h

/-- The adaptive step stays between 1 and a tenth of the exposure. -/
theorem adapt_bounds (increment : Int) (lastSum sum : ℚ) (exposure : Int)
    (h1 : 1 ≤ increment) (h2 : 10 * increment ≤ exposure) :
    1 ≤ adapt increment lastSum sum exposure ∧
      10 * adapt increment lastSum sum exposure ≤ exposure := by
  unfold adapt
  split_ifs with hs
  · have hb : (1 : ℚ) ≤ (exposure : ℚ) / 10 := by
      have : (10 : ℚ) ≤ (exposure : ℚ) := by exact_mod_cast (by omega : (10 : Int) ≤ exposure)
      linarith
    set x : ℚ := max (min ((increment : ℚ) / (sum - lastSum)) ((exposure : ℚ) / 10)) 1
      with hx
    have hx1 : (1 : ℚ) ≤ x := le_max_right _ _
    have hx2 : x ≤ (exposure : ℚ) / 10 := max_le (min_le_right _ _) hb
    rw [toInt_of_nonneg (by linarith)]
    constructor
    · exact Int.le_floor.mpr (by simpa using hx1)
    · have h3 : ((⌊x⌋ : Int) : ℚ) ≤ (exposure : ℚ) / 10 := le_trans (Int.floor_le x) hx2
      have h4 : (10 : ℚ) * ((⌊x⌋ : Int) : ℚ) ≤ (exposure : ℚ) := by linarith
      exact_mod_cast h4
  · exact ⟨h1, h2⟩

theorem start_stepBounded (initial : Int → Int) : StepBounded (start initial) := by
  unfold StepBounded start
  simp

theorem walkBody_stepBounded (bright : Nat → Int → ℚ) (s : State) (h : StepBounded s) :
    StepBounded (walkBody bright s) := by
  obtain ⟨h1, h2⟩ := h
  have hb := adapt_bounds s.increment s.sum (bright s.taken s.exposure) s.exposure h1 h2
  unfold StepBounded walkBody
  simp only
  constructor
  · exact hb.1
  · have := hb.1
    have := hb.2
    omega

theorem tryLevel_keeps (bright : Nat → Int → ℚ) (i j : Int) (lo hi : ℚ) (k : Int)
    (s0 s : State) (h : Keeps s0 s) : Keeps s0 (tryLevel bright i j lo hi k s) := by
  intro g hg
  have h1 := h g hg
  unfold tryLevel
  simp only
  split_ifs with h0
  · rw [Function.update_apply]
    split_ifs with he
    · subst he
      rw [h1] at h0
      exact absurd h0 hg
    · exact h1
  · exact h1

theorem scanBody_keeps (bright : Nat → Int → ℚ) (i : Int) (s0 s : State) (h : Keeps s0 s) :
    Keeps s0 (scanBody bright i s) := by
  unfold scanBody
  split_ifs
  · exact forLoop_induction (Keeps s0) _ _ (fun k t ht => tryLevel_keeps bright _ _ _ _ k s0 t ht)
      _ _ _ h
  · exact h

theorem phase2_keeps (bright : Nat → Int → ℚ) (s : State) : Keeps s (phase2 bright s) := by
  unfold phase2 scanFrom
  exact forLoop_induction (Keeps s) _ _ (fun i t ht => scanBody_keeps bright i s t ht) _ _ _
    (fun _ _ => rfl)

/-- The scan changes nothing when no cell from `i` on is unset. -/
theorem scan_of_full (bright : Nat → Int → ℚ) (fuel : Nat) (i : Int) (s : State)
    (h : ∀ g, i ≤ g → g < maxGray → s.exposureArray g ≠ 0) :
    forLoop maxGray (scanBody bright) fuel i s = s := by
  induction fuel generalizing i with
  | zero => rfl
  | succ n ih =>
    unfold forLoop
    split_ifs with hi
    · have h1 : scanBody bright i s = s := by
        unfold scanBody
        rw [if_neg (h i le_rfl hi)]
      rw [h1]
      exact ih (i + 1) (fun g hg hg2 => h g (by omega) hg2)
    · rfl

theorem phase2_of_full (bright : Nat → Int → ℚ) (s : State)
    (h : ∀ g, minGray ≤ g → g < maxGray → s.exposureArray g ≠ 0) :
    phase2 bright s = s := by
  unfold phase2 scanFrom
  exact scan_of_full bright _ _ s h

/-! ## The bounds on the number of iterations are enough -/

theorem forLoop_stop {σ : Type} (hi : Int) (body : Int → σ → σ) (fuel : Nat) (i : Int) (s : σ)
    (h : ¬ i < hi) : forLoop hi body fuel i s = s := by
  cases fuel with
  | zero => rfl
  | succ n =>
    unfold forLoop
    rw [if_neg h]

/-- A `for` loop from `i` to `hi` ends within `hi - i` iterations: more fuel gives the same
state. -/
theorem forLoop_fuel {σ : Type} (hi : Int) (body : Int → σ → σ) (fuel : Nat) (i : Int) (s : σ)
    (h : (hi - i).toNat ≤ fuel) :
    forLoop hi body fuel i s = forLoop hi body (hi - i).toNat i s := by
  induction fuel generalizing i s with
  | zero =>
    have h0 : (hi - i).toNat = 0 := by omega
    rw [h0]
  | succ n ih =>
    by_cases hlt : i < hi
    · have h1 : (hi - i).toNat = (hi - (i + 1)).toNat + 1 := by omega
      rw [h1]
      unfold forLoop
      rw [if_pos hlt, if_pos hlt]
      exact ih (i + 1) (body i s) (by omega)
    · rw [forLoop_stop _ _ _ _ _ hlt, forLoop_stop _ _ _ _ _ hlt]

theorem gapEnd_stop (table : Int → Int) (fuel : Nat) (j : Int) (h : ¬ j < maxGray) :
    gapEnd table fuel j = j := by
  cases fuel with
  | zero => rfl
  | succ n =>
    unfold gapEnd
    rw [if_neg (fun hc => h hc.1)]

/-- The search for the end of a gap from `j` ends within `maxGray - j` iterations. -/
theorem gapEnd_fuel (table : Int → Int) (fuel : Nat) (j : Int)
    (h : (maxGray - j).toNat ≤ fuel) :
    gapEnd table fuel j = gapEnd table (maxGray - j).toNat j := by
  induction fuel generalizing j with
  | zero =>
    have h0 : (maxGray - j).toNat = 0 := by omega
    rw [h0]
  | succ n ih =>
    by_cases hlt : j < maxGray
    · have h1 : (maxGray - j).toNat = (maxGray - (j + 1)).toNat + 1 := by omega
      rw [h1]
      unfold gapEnd
      by_cases hc : j < maxGray ∧ table j = 0
      · rw [if_pos hc, if_pos hc]
        exact ih (j + 1) (by omega)
      · rw [if_neg hc, if_neg hc]
    · rw [gapEnd_stop _ _ _ hlt, gapEnd_stop _ _ _ hlt]

theorem walkLoop_stop (bright : Nat → Int → ℚ) (fuel : Nat) (i : Int) (s : State)
    (h : ¬ walkCond i s) : walkLoop bright fuel i s = s := by
  cases fuel with
  | zero => rfl
  | succ n =>
    unfold walkLoop
    rw [if_neg h]

/-- The walkthrough from its counter value `i` ends within `1000 - i` iterations. -/
theorem walkLoop_fuel (bright : Nat → Int → ℚ) (fuel : Nat) (i : Int) (s : State)
    (h : (1000 - i).toNat ≤ fuel) :
    walkLoop bright fuel i s = walkLoop bright (1000 - i).toNat i s := by
  induction fuel generalizing i s with
  | zero =>
    have h0 : (1000 - i).toNat = 0 := by omega
    rw [h0]
  | succ n ih =>
    by_cases hc : walkCond i s
    · have hlt : i < 1000 := hc.1
      have h1 : (1000 - i).toNat = (1000 - (i + 1)).toNat + 1 := by omega
      rw [h1]
      unfold walkLoop
      rw [if_pos hc, if_pos hc]
      exact ih (i + 1) (walkBody bright s) (by omega)
    · rw [walkLoop_stop _ _ _ _ hc, walkLoop_stop _ _ _ _ hc]

/-- Phase 1 is the walkthrough run to its end: any bound of at least 1000 iterations gives
the same state. -/
theorem phase1_fuel (bright : Nat → Int → ℚ) (initial : Int → Int) (fuel : Nat)
    (h : 1000 ≤ fuel) : walkLoop bright fuel 0 (start initial) = phase1 bright initial := by
  unfold phase1
  rw [walkLoop_fuel bright fuel 0 _ (by simpa using h)]
  rfl

/-- Phase 2 is the scan run to its end: any bound of at least `maxGray - minGray` iterations
gives the same state. -/
theorem phase2_fuel (bright : Nat → Int → ℚ) (s : State) (fuel : Nat)
    (h : (maxGray - minGray).toNat ≤ fuel) :
    forLoop maxGray (scanBody bright) fuel minGray s = phase2 bright s := by
  unfold phase2 scanFrom
  exact forLoop_fuel _ _ _ _ _ h

/-! ## The table of Phase 1 -/

theorem walkBody_ordered (f : Int → ℚ) (hf : Monotone f) (table0 : Int → Int) (s : State)
    (hs : StepBounded s) (h : Ordered f table0 s) :
    Ordered f table0 (walkBody (fun _ e => f e) s) := by
  obtain ⟨hA, hB⟩ := h
  have hb := adapt_bounds s.increment s.sum (f s.exposure) s.exposure hs.1 hs.2
  have hidx : walkIndex (f s.exposure)
      ≤ walkIndex (f (s.exposure + adapt s.increment s.sum (f s.exposure) s.exposure)) :=
    walkIndex_mono (hf (by omega))
  unfold Ordered walkBody
  simp only
  constructor
  · intro g hg
    rw [Function.update_apply] at hg ⊢
    by_cases he : g = walkIndex (f s.exposure)
    · rw [if_pos he]
      subst he
      exact ⟨by omega, hidx⟩
    · rw [if_neg he] at hg ⊢
      have := hA g hg
      exact ⟨by omega, le_trans this.2 hidx⟩
  · intro g1 g2 h12 h1 h2
    rw [Function.update_apply] at h1 h2 ⊢
    rw [Function.update_apply]
    by_cases e1 : g1 = walkIndex (f s.exposure)
    · by_cases e2 : g2 = walkIndex (f s.exposure)
      · omega
      · rw [if_neg e2] at h2
        have := (hA g2 h2).2
        omega
    · rw [if_neg e1] at h1 ⊢
      by_cases e2 : g2 = walkIndex (f s.exposure)
      · rw [if_pos e2]
        exact le_of_lt (hA g1 h1).1
      · rw [if_neg e2] at h2 ⊢
        exact hB g1 g2 h12 h1 h2

theorem walkLoop_ordered (f : Int → ℚ) (hf : Monotone f) (initial : Int → Int) (n : Nat) :
    Ordered f (start initial).exposureArray (walkLoop (fun _ e => f e) n 0 (start initial)) := by
  have h := walkLoop_induction (fun _ e => f e)
    (fun s => StepBounded s ∧ Ordered f (start initial).exposureArray s)
    (fun s hs => ⟨walkBody_stepBounded _ s hs.1, walkBody_ordered f hf _ s hs.1 hs.2⟩)
    n 0 (start initial)
    ⟨start_stepBounded initial, fun g hg => absurd rfl hg, fun _ _ _ hg => absurd rfl hg⟩
  exact h.2

theorem rampBrightness_monotone : Monotone rampBrightness := by
  intro a b h
  unfold rampBrightness
  have : (a : ℚ) ≤ (b : ℚ) := by exact_mod_cast h
  exact min_le_min (by linarith) le_rfl

/-- C4: with a brightness that is monotonically increasing with the exposure, the table of
Phase 1 is non-decreasing along the gray index: for gray indices `g1 < g2` whose cells
Phase 1 recorded (the walkthrough changed them), `table[g1] ≤ table[g2]`. -/
theorem phase1_table_ordered (f : Int → ℚ) (hf : Monotone f) (initial : Int → Int)
    (g1 g2 : Int) (h : g1 < g2)
    (h1 : (phase1 (fun _ e => f e) initial).exposureArray g1 ≠ (start initial).exposureArray g1)
    (h2 : (phase1 (fun _ e => f e) initial).exposureArray g2 ≠ (start initial).exposureArray g2) :
    (phase1 (fun _ e => f e) initial).exposureArray g1
      ≤ (phase1 (fun _ e => f e) initial).exposureArray g2 :=
  (walkLoop_ordered f hf initial 1000).2 g1 g2 h h1 h2

/-- With the brightness `rampBrightness` the gray levels 20 and 21 are recorded at the
exposures 10 and 11. -/
theorem ramp_cells :
    (phase1 (fun _ e => rampBrightness e) zeroMemory).exposureArray 20 = 10 ∧
    (phase1 (fun _ e => rampBrightness e) zeroMemory).exposureArray 21 = 11 := by
  decide!

theorem start_zero_cells :
    (start zeroMemory).exposureArray 20 = 0 ∧ (start zeroMemory).exposureArray 21 = 0 := by
  decide

/-- The cells 20 and 21 of the table that Phase 1 builds with `rampBrightness`. -/
theorem phase1_table_ordered_witness :
    (phase1 (fun _ e => rampBrightness e) zeroMemory).exposureArray 20
      ≤ (phase1 (fun _ e => rampBrightness e) zeroMemory).exposureArray 21 :=
  phase1_table_ordered rampBrightness rampBrightness_monotone zeroMemory 20 21 (by decide)
    (ramp_cells.1.trans_ne (start_zero_cells.1.trans_ne (by decide)).symm)
    (ramp_cells.2.trans_ne (start_zero_cells.2.trans_ne (by decide)).symm)

/-- Below 254.5 the two indices agree and are indices of the array. -/
theorem index_valid (sum : ℚ) (h0 : 0 ≤ sum) (h1 : sum < 509 / 2) :
    fillIndex sum = walkIndex sum ∧ validIndex (walkIndex sum) := by
  have hw : walkIndex sum = ⌊sum + 1 / 2⌋ := by
    unfold walkIndex
    exact toInt_of_nonneg (by linarith)
  have hf : fillIndex sum = ⌊sum + 1 / 2⌋ := by
    unfold fillIndex round
    rw [if_pos h0, toInt_intCast]
  refine ⟨by rw [hw, hf], ?_⟩
  rw [hw]
  unfold validIndex exposureArraySize
  constructor
  · exact Int.floor_nonneg.mpr (by linarith)
  · exact Int.floor_lt.mpr (by push_cast; linarith)

/-- C3, at a saturated frame: for the mean gray value 255 both indices are 255, which is not
an index of `int exposureArray[255]`, and the first iteration of Phase 1 with
`saturatedCamera` stores the exposure 10 there. -/
theorem saturated_index_out_of_bounds :
    walkIndex 255 = 255 ∧ fillIndex 255 = 255 ∧ ¬ validIndex 255 ∧
    (walkLoop saturatedCamera 1 0 (start zeroMemory)).exposureArray 255 = 10 := by
  decide!

/-! ## The gap fill of Phase 2 -/

/-- The runs with `stepBrightness`.  Phase 1 visits the exposures 10, 11, ..., 20, 22, ...,
100, 102, 112, 115, 117, ... and leaves the cells 66 and 67 unset between the cell 65 (exposure
102) and the cell 68 (exposure 112).  Phase 2 tries the exposures 105 and 108 for this gap:
105 gives the gray level 67, which it fills, and 108 gives 65, which is set; the cell 66
stays unset.  Phase 2 run once more finds the gap 66 between the exposures 102 and 105, tries
103, and fills the cell 66. -/
theorem stepBrightness_runs :
    ((phase1 (fun _ e => stepBrightness e) zeroMemory).exposureArray 65 = 102 ∧
      (phase1 (fun _ e => stepBrightness e) zeroMemory).exposureArray 66 = 0 ∧
      (phase1 (fun _ e => stepBrightness e) zeroMemory).exposureArray 67 = 0 ∧
      (phase1 (fun _ e => stepBrightness e) zeroMemory).exposureArray 68 = 112) ∧
    ((phase2 (fun _ e => stepBrightness e)
        (phase1 (fun _ e => stepBrightness e) zeroMemory)).exposureArray 66 = 0 ∧
      (phase2 (fun _ e => stepBrightness e)
        (phase1 (fun _ e => stepBrightness e) zeroMemory)).exposureArray 67 = 105) ∧
    (phase2 (fun _ e => stepBrightness e) (phase2 (fun _ e => stepBrightness e)
        (phase1 (fun _ e => stepBrightness e) zeroMemory))).exposureArray 66 = 103 := by
  decide!

/-- C5, as stated, fails: with the deterministic brightness `stepBrightness`, running Phase 2
a second time does not yield the table of the first run (the first run leaves the cell of gray
level 66 unset, the second run sets it to the exposure 103). -/
theorem gapfill_not_idempotent :
    (phase2 (fun _ e => stepBrightness e) (phase2 (fun _ e => stepBrightness e)
        (phase1 (fun _ e => stepBrightness e) zeroMemory))).exposureArray
      ≠ (phase2 (fun _ e => stepBrightness e)
        (phase1 (fun _ e => stepBrightness e) zeroMemory)).exposureArray :=
  fun h => absurd
    (stepBrightness_runs.2.2.symm.trans ((congrFun h 66).trans stepBrightness_runs.2.1.1))
    (by decide)

/-- C5, as the code has it: for every table and every deterministic brightness function `f`
of the exposure, a second run of Phase 2 keeps every cell that is set after the first run, and
it yields the same table as the first run when the first run left no cell from `minGray` up to
`maxGray - 1` unset. -/
theorem second_gapfill (f : Int → ℚ) (s : State) :
    (∀ g, (phase2 (fun _ e => f e) s).exposureArray g ≠ 0 →
      (phase2 (fun _ e => f e) (phase2 (fun _ e => f e) s)).exposureArray g
        = (phase2 (fun _ e => f e) s).exposureArray g) ∧
    ((∀ g, minGray ≤ g → g < maxGray → (phase2 (fun _ e => f e) s).exposureArray g ≠ 0) →
      (phase2 (fun _ e => f e) (phase2 (fun _ e => f e) s)).exposureArray
        = (phase2 (fun _ e => f e) s).exposureArray) := by
  constructor
  · intro g hg
    exact phase2_keeps _ _ g hg
  · intro h
    rw [phase2_of_full _ _ h]

/-- On a table without unset cells both runs of Phase 2 change nothing. -/
theorem second_gapfill_witness :
    (∀ g, minGray ≤ g → g < maxGray →
      (phase2 (fun _ e => rampBrightness e) fullTable).exposureArray g ≠ 0) ∧
    (phase2 (fun _ e => rampBrightness e)
        (phase2 (fun _ e => rampBrightness e) fullTable)).exposureArray
      = (phase2 (fun _ e => rampBrightness e) fullTable).exposureArray := by
  have hfull : ∀ g, minGray ≤ g → g < maxGray →
      (phase2 (fun _ e => rampBrightness e) fullTable).exposureArray g ≠ 0 := by
    intro g _ _
    have h0 : fullTable.exposureArray g ≠ 0 := by
      show 10 * g + 1 ≠ 0
      omega
    rw [phase2_keeps _ fullTable g h0]
    exact h0
  exact ⟨hfull, (second_gapfill rampBrightness fullTable).2 hfull⟩

theorem walkIndex_dark (t : Nat) (e : Int) : walkIndex (darkCamera t e) = 0 := by
  show walkIndex 0 = 0
  decide!

/-- With the covered lens the walkthrough writes the cell 0 only. -/
theorem darkWalk (initial : Int → Int) (n : Nat) (g : Int) (hg : g ≠ 0) :
    (walkLoop darkCamera n 0 (start initial)).exposureArray g
      = (start initial).exposureArray g := by
  have h := walkLoop_induction darkCamera
    (fun s => ∀ g, g ≠ 0 → s.exposureArray g = (start initial).exposureArray g)
    (fun s hs g hg => by
      unfold walkBody
      simp only
      rw [walkIndex_dark, Function.update_apply, if_neg hg]
      exact hs g hg)
    n 0 (start initial) (fun _ _ => rfl)
  exact h g hg

/-- The search for the end of a gap runs up to `maxGray` when no cell on the way is set. -/
theorem gapEnd_unset (table : Int → Int) (fuel : Nat) (i : Int)
    (h : ∀ g, i ≤ g → g < maxGray → table g = 0) (hi : i ≤ maxGray)
    (hf : fuel = (maxGray - i).toNat) : gapEnd table fuel i = maxGray := by
  induction fuel generalizing i with
  | zero =>
    unfold gapEnd
    omega
  | succ n ih =>
    unfold gapEnd
    have hlt : i < maxGray := by omega
    rw [if_pos ⟨hlt, h i le_rfl hlt⟩]
    exact ih (i + 1) (fun g hg hg2 => h g (by omega) hg2) (by omega) (by omega)

/-- With the covered lens the cells from `minGray` up to `maxGray - 1` are unset after
Phase 1. -/
theorem dark_cells (initial : Int → Int) (g : Int) (h1 : minGray ≤ g) (h2 : g < maxGray) :
    (phase1 darkCamera initial).exposureArray g = 0 := by
  unfold phase1
  rw [darkWalk initial 1000 g (by unfold minGray at h1; omega)]
  unfold start
  simp only
  rw [if_pos ⟨h1, h2⟩]

/-- With the covered lens and whatever the memory of the array holds at first, the first gap
of Phase 2 runs from `minGray` to `maxGray` and its bounds are cells that hold what the memory
held. -/
theorem dark_first_gap (initial : Int → Int) :
    (phase1 darkCamera initial).exposureArray minGray = 0 ∧
    gapEnd (phase1 darkCamera initial).exposureArray (maxGray - minGray).toNat minGray
      = maxGray ∧
    (phase1 darkCamera initial).exposureArray (minGray - 1) = initial 19 ∧
    (phase1 darkCamera initial).exposureArray maxGray = initial 235 := by
  refine ⟨dark_cells initial minGray le_rfl (by decide), ?_, ?_, ?_⟩
  · exact gapEnd_unset _ _ _ (dark_cells initial) (by decide) rfl
  · unfold phase1
    rw [darkWalk initial 1000 _ (by decide)]
    unfold start
    simp only
    rw [if_neg (by decide)]
    rfl
  · unfold phase1
    rw [darkWalk initial 1000 _ (by decide)]
    unfold start
    simp only
    rw [if_neg (by decide)]
    rfl

theorem fillIndex_dark (t : Nat) (e : Int) : fillIndex (darkCamera t e) = 0 := by
  show fillIndex 0 = 0
  decide!

/-- With the covered lens the walkthrough leaves an exposure in the cell 0. -/
theorem dark_cell_zero (initial : Int → Int) :
    (phase1 darkCamera initial).exposureArray 0 ≠ 0 := by
  have hstep : phase1 darkCamera initial
      = walkLoop darkCamera 999 (0 + 1) (walkBody darkCamera (start initial)) := by
    have hc : walkCond 0 (start initial) := by
      unfold walkCond start
      simp
    show walkLoop darkCamera (999 + 1) 0 (start initial) = _
    rw [walkLoop, if_pos hc]
  have h := walkLoop_induction darkCamera
    (fun s => StepBounded s ∧ 10 ≤ s.exposureArray 0)
    (fun s hs => by
      refine ⟨walkBody_stepBounded _ s hs.1, ?_⟩
      unfold walkBody
      simp only
      rw [walkIndex_dark, Function.update_same]
      have := hs.1.1
      have := hs.1.2
      omega)
    999 (0 + 1) (walkBody darkCamera (start initial))
    ⟨walkBody_stepBounded _ _ (start_stepBounded initial), by
      unfold walkBody
      simp only
      rw [walkIndex_dark, Function.update_same]
      unfold start
      simp⟩
  rw [hstep]
  have := h.2
  omega

/-- With the covered lens no try of Phase 2 changes the table once the cell 0 is set. -/
theorem dark_scanBody_table (i : Int) (s : State) (h0 : s.exposureArray 0 ≠ 0) :
    (scanBody darkCamera i s).exposureArray = s.exposureArray := by
  unfold scanBody
  split_ifs
  · exact forLoop_induction (fun t : State => t.exposureArray = s.exposureArray) _ _
      (fun k t ht => by
        unfold tryLevel
        simp only
        rw [fillIndex_dark, if_neg (by rw [ht]; exact h0)]
        exact ht)
      _ _ _ rfl
  · rfl

/-- With the covered lens the scan reaches `i = 21` with the table of Phase 1. -/
theorem dark_scanReached (initial : Int → Int) :
    (scanReached darkCamera 21 (phase1 darkCamera initial)).exposureArray
      = (phase1 darkCamera initial).exposureArray := by
  have h1 : scanReached darkCamera 21 (phase1 darkCamera initial)
      = scanBody darkCamera minGray (phase1 darkCamera initial) := by
    show forLoop maxGray (scanBody darkCamera) (0 + 1) minGray _ = _
    rw [forLoop, if_pos (by decide)]
    rfl
  rw [h1]
  exact dark_scanBody_table _ _ (dark_cell_zero initial)

/-- With the covered lens the scan reaches `i = 21` with the cells 20 and 21 unset and finds
the end of the gap at `maxGray`. -/
theorem dark_second_gap (initial : Int → Int) :
    (scanReached darkCamera 21 (phase1 darkCamera initial)).exposureArray 21 = 0 ∧
    gapEnd (scanReached darkCamera 21 (phase1 darkCamera initial)).exposureArray
      (maxGray - 21).toNat 21 = maxGray ∧
    (scanReached darkCamera 21 (phase1 darkCamera initial)).exposureArray (21 - 1) = 0 := by
  rw [dark_scanReached]
  have hcell := dark_cells initial
  refine ⟨hcell 21 (by decide) (by decide), ?_, hcell (21 - 1) (by decide) (by decide)⟩
  exact gapEnd_unset _ _ _ (fun g hg hg2 => hcell g (by unfold minGray; omega) hg2)
    (by decide) rfl

/-- C9, at a camera behind a covered lens (every frame black), whatever the memory of the
array holds at first.  After Phase 1 the first gap that Phase 2 processes starts at
`i = minGray` and ends at `j = maxGray`, and its two bounds are the cells 19 and 235, which
line 104 has not cleared and no step has written: they hold what the memory held.  The scan
then reaches `i = 21` and processes the gap from 21 to `maxGray`, although the cell 20 before
it is unset as well. -/
theorem gap_bounds_not_known (initial : Int → Int) :
    ((phase1 darkCamera initial).exposureArray minGray = 0 ∧
      gapEnd (phase1 darkCamera initial).exposureArray (maxGray - minGray).toNat minGray
        = maxGray ∧
      (phase1 darkCamera initial).exposureArray (minGray - 1) = initial 19 ∧
      (phase1 darkCamera initial).exposureArray maxGray = initial 235) ∧
    ((scanReached darkCamera 21 (phase1 darkCamera initial)).exposureArray 21 = 0 ∧
      gapEnd (scanReached darkCamera 21 (phase1 darkCamera initial)).exposureArray
        (maxGray - 21).toNat 21 = maxGray ∧
      (scanReached darkCamera 21 (phase1 darkCamera initial)).exposureArray (21 - 1) = 0) :=
  ⟨dark_first_gap initial, dark_second_gap initial⟩

end CameraTester

end TaraCamera
